import Mathlib

/-!
Verification development for the per-frame core of the emigui repository.

Two source files are embedded:

* `src/egui/src/context.rs` — the frame context: id registry
  (`register_unique_id`), hit testing (`contains_mouse`) and the
  click/drag interaction resolver (`interact`).  Embedded in namespace
  `Egui`.
* `src/src/style.rs` — the pure translation of widget commands into
  paint primitives (`translate_cmd`, `into_paint_commands`).  Embedded
  in namespace `Emigui` (this file predates the egui rename and uses a
  `pos`/`size` rectangle).

Machine floats are embedded as rationals (`ℚ`); all the arithmetic the
claims touch is exact on the inputs considered.  `Pos2::distance(p) < 4.0`
is embedded as squared distance `< 16`, which is equivalent for real
arithmetic since both sides of the original comparison are nonnegative.
-/

namespace Egui

/-- Screen position in points (egui `Pos2`). -/
structure Pos2 where
  x : ℚ
  y : ℚ
deriving DecidableEq

/-- A 2D vector (egui `Vec2`). -/
structure Vec2 where
  x : ℚ
  y : ℚ
deriving DecidableEq

/-- Axis-aligned rectangle with `min`/`max` corners (egui `Rect`). -/
structure Rect where
  min : Pos2
  max : Pos2
deriving DecidableEq

/-- Modelled from the spec: `Rect::intersect` from egui math (absent from
src/); standard axis-aligned intersection, componentwise max of the min
corners and min of the max corners. -/
def Rect.intersect (r o : Rect) : Rect :=
  ⟨⟨Max.max r.min.x o.min.x, Max.max r.min.y o.min.y⟩,
   ⟨Min.min r.max.x o.max.x, Min.min r.max.y o.max.y⟩⟩

/-- Modelled from the spec: `Rect::contains` from egui math (absent from
src/); closed-interval membership on both axes. -/
def Rect.contains (r : Rect) (p : Pos2) : Bool :=
  decide (r.min.x ≤ p.x ∧ p.x ≤ r.max.x ∧ r.min.y ≤ p.y ∧ p.y ≤ r.max.y)

/-- Modelled from the spec: `Rect::expand2` from egui math (absent from
src/); grows the rectangle by the given amount on each side. -/
def Rect.expand2 (r : Rect) (amnt : Vec2) : Rect :=
  ⟨⟨r.min.x - amnt.x, r.min.y - amnt.y⟩, ⟨r.max.x + amnt.x, r.max.y + amnt.y⟩⟩

/-- Squared euclidean distance between two positions.  `clash_pos.distance(pos) < 4.0`
in `register_unique_id` is embedded as `dist_sq clash_pos pos < 16`. -/
def Pos2.dist_sq (a b : Pos2) : ℚ :=
  (a.x - b.x) ^ 2 + (a.y - b.y) ^ 2

/-- Widget identity: an opaque value produced by hashing (egui `Id(u64)`). -/
abbrev Id := Nat

/-- Z-order class of a layer (egui `Order`). -/
inductive Order where
  | background
  | middle
  | foreground
  | debug
deriving DecidableEq

/-- An ordering/grouping key for drawable regions (egui `Layer`). -/
structure Layer where
  order : Order
  id : Id
deriving DecidableEq

/-- Capability mask: which interactions a region is interested in (egui `Sense`). -/
structure Sense where
  click : Bool
  drag : Bool
deriving DecidableEq

/-- `Sense::nothing()`: interested in neither click nor drag. -/
def Sense.nothing : Sense := ⟨false, false⟩

/-- Mouse part of the per-frame input snapshot; the fields `interact` and
`contains_mouse` read. -/
structure MouseInput where
  pos : Option Pos2
  pressed : Bool
  released : Bool
  down : Bool
  double_click : Bool
deriving DecidableEq

/-- Per-frame input snapshot (the part read by the embedded functions). -/
structure InputState where
  mouse : MouseInput
deriving DecidableEq

/-- Click/drag ownership state machine (egui `memory.interaction`). -/
structure Interaction where
  click_id : Option Id
  drag_id : Option Id
  click_interest : Bool
  drag_interest : Bool
  drag_is_window : Bool
deriving DecidableEq

/-- Modelled from the spec: the window-move interaction record stored in
`memory.window_interaction`; only its presence or absence matters to
`interact`, which force-clears it when a drag target is claimed. -/
structure WindowInteraction where
deriving DecidableEq

/-- The part of egui `Memory` that `interact` reads and writes. -/
structure Memory where
  interaction : Interaction
  window_interaction : Option WindowInteraction
deriving DecidableEq

/-- The part of egui `Style` that `interact` reads. -/
structure Style where
  item_spacing : Vec2
deriving DecidableEq

/-- The result record of an `interact` call (egui `InteractInfo`). -/
structure InteractInfo where
  rect : Rect
  hovered : Bool
  clicked : Bool
  double_clicked : Bool
  active : Bool
deriving DecidableEq

/-- The frame context: the fields of egui `Context` that the embedded
functions read, plus `layer_at`, which is modelled from the spec: the area
registry query `layer_at(pos, tolerance) -> Option<Layer>` is an external
collaborator (spec §6) whose internals live outside src/; it is carried as
an abstract function resolving the topmost interactable layer under a
position. -/
structure Context where
  style : Style
  input : InputState
  memory : Memory
  layer_at : Pos2 → Option Layer

/-- `Context::contains_mouse`: the rectangle is clipped, then the mouse must
be inside it and the topmost layer under the mouse must be this layer. -/
def Context.contains_mouse (c : Context) (layer : Layer) (clip_rect rect : Rect) : Bool :=
  let rect := rect.intersect clip_rect
  match c.input.mouse.pos with
  | some mouse_pos => rect.contains mouse_pos && decide (c.layer_at mouse_pos = some layer)
  | none => false

/-- The click-target enlargement `interact` applies before hit testing:
`rect.expand2(0.5 * self.style().item_spacing)`, i.e. the region grown by
half the configured item spacing on each axis. -/
def Context.interact_rect_of (c : Context) (rect : Rect) : Rect :=
  rect.expand2 ⟨(1 / 2) * c.style.item_spacing.x, (1 / 2) * c.style.item_spacing.y⟩

/-- `Context::interact`: hit testing plus the click/drag ownership state
machine.  Mutation of `Memory` is embedded as returning the new `Memory`
alongside the `InteractInfo` result. -/
def Context.interact (c : Context) (layer : Layer) (clip_rect : Rect) (rect : Rect)
    (interaction_id : Option Id) (sense : Sense) : InteractInfo × Memory :=
  let interact_rect := c.interact_rect_of rect
  let hovered := c.contains_mouse layer clip_rect interact_rect
  match interaction_id with
  | none => (⟨rect, hovered, false, false, false⟩, c.memory)
  | some interaction_id =>
    if sense = Sense.nothing then
      (⟨rect, hovered, false, false, false⟩, c.memory)
    else
      let memory := c.memory
      let memory := { memory with interaction := { memory.interaction with
        click_interest := memory.interaction.click_interest || (hovered && sense.click),
        drag_interest := memory.interaction.drag_interest || (hovered && sense.drag) } }
      let active := decide (memory.interaction.click_id = some interaction_id)
        || decide (memory.interaction.drag_id = some interaction_id)
      if c.input.mouse.pressed then
        if hovered then
          let claim_click := sense.click && memory.interaction.click_id.isNone
          let memory := if claim_click then
              { memory with interaction :=
                { memory.interaction with click_id := some interaction_id } }
            else memory
          let claim_drag := sense.drag &&
              (memory.interaction.drag_id.isNone || memory.interaction.drag_is_window)
          let memory := if claim_drag then
              { memory with
                interaction := { memory.interaction with
                  drag_id := some interaction_id
                  drag_is_window := false }
                window_interaction := none }
            else memory
          (⟨rect, true, false, false, claim_click || claim_drag⟩, memory)
        else
          (⟨rect, hovered, false, false, false⟩, memory)
      else if c.input.mouse.released then
        let clicked := hovered && active
        (⟨rect, hovered, clicked, clicked && c.input.mouse.double_click, active⟩, memory)
      else if c.input.mouse.down then
        (⟨rect, hovered && active, false, false, active⟩, memory)
      else
        (⟨rect, hovered, false, false, active⟩, memory)

/-- The per-frame id registry `used_ids : AHashMap<Id, Pos2>`, embedded as an
association list. -/
abbrev IdRegistry := List (Id × Pos2)

/-- `AHashMap::insert`: returns the previous value bound to the key, if any,
together with the updated map. -/
def registry_insert (reg : IdRegistry) (id : Id) (pos : Pos2) : Option Pos2 × IdRegistry :=
  match reg.lookup id with
  | some old => (some old, (id, pos) :: reg.filter (fun e => !(e.1 == id)))
  | none => (none, (id, pos) :: reg)

/-- A diagnostic emitted by `show_error`: `show_error` lays out the message
and paints an error overlay (background rectangle plus red text) at the
given position on the debug layer; fonts and text layout are out of scope
(spec §1), so a diagnostic is embedded as the anchored position and
message. -/
abbrev Diagnostic := Pos2 × String

/-- `Context::register_unique_id`: records that `id` was claimed at `pos`
this frame; on a clash closer than the 4-point threshold one diagnostic is
emitted at the new position, otherwise two diagnostics are emitted, one at
each position.  Returns the id, the updated registry and the emitted
diagnostics. -/
def register_unique_id (reg : IdRegistry) (id : Id) (source_name : String) (pos : Pos2) :
    Id × IdRegistry × List Diagnostic :=
  match registry_insert reg id pos with
  | (some clash_pos, reg) =>
    if clash_pos.dist_sq pos < 16 then
      (id, reg, [(pos, "use of non-unique ID " ++ source_name ++ " (name clash?)")])
    else
      (id, reg,
        [(clash_pos, "first use of non-unique ID " ++ source_name ++ " (name clash?)"),
         (pos, "second use of non-unique ID " ++ source_name ++ " (name clash?)")])
  | (none, reg) => (id, reg, [])

/-- One id-registration request: id, debug name of the id source, position. -/
abbrev Registration := Id × String × Pos2

/-- Runs a sequence of `register_unique_id` calls against a registry,
collecting all emitted diagnostics in order. -/
def run_registrations : IdRegistry → List Registration → IdRegistry × List Diagnostic
  | reg, [] => (reg, [])
  | reg, (id, name, pos) :: rest =>
    let r1 := register_unique_id reg id name pos
    let r2 := run_registrations r1.2.1 rest
    (r2.1, r1.2.2 ++ r2.2)

/-- One frame of id registrations: `begin_frame_mut` first clears `used_ids`
(`self.used_ids.lock().clear()`), then the frame's registrations run.  The
registry left over from the previous frame is discarded. -/
def run_frame (_reg : IdRegistry) (frame : List Registration) : IdRegistry × List Diagnostic :=
  let cleared : IdRegistry := []
  run_registrations cleared frame

/-- Runs a sequence of frames, threading the registry across frames (each
frame clears it on entry) and recording each frame's diagnostics. -/
def run_frames : IdRegistry → List (List Registration) → List (List Diagnostic)
  | _, [] => []
  | reg, f :: fs =>
    let r := run_frame reg f
    r.2 :: run_frames r.1 fs

/-- A concrete layer used to evaluate the theorems on concrete inputs. -/
def sample_layer : Layer := ⟨Order.middle, 1⟩

/-- A concrete widget region. -/
def sample_rect : Rect := ⟨⟨0, 0⟩, ⟨10, 10⟩⟩

/-- A concrete clip rectangle enclosing `sample_rect`. -/
def sample_clip : Rect := ⟨⟨0, 0⟩, ⟨100, 100⟩⟩

/-- A concrete style with zero item spacing. -/
def sample_style : Style := ⟨⟨0, 0⟩⟩

/-- A memory with no interaction ownership. -/
def fresh_memory : Memory := ⟨⟨none, none, false, false, false⟩, none⟩

/-- A context with the mouse idle over the region. -/
def idle_ctx : Context :=
  ⟨sample_style, ⟨⟨some ⟨5, 5⟩, false, false, false, false⟩⟩, fresh_memory,
   fun _ => some sample_layer⟩

/-- A context on a press edge with the mouse over the region and no owners. -/
def pressed_ctx : Context :=
  ⟨sample_style, ⟨⟨some ⟨5, 5⟩, true, false, true, false⟩⟩, fresh_memory,
   fun _ => some sample_layer⟩

/-- A context on a press edge where id 9 already owns the click. -/
def owned_ctx : Context :=
  ⟨sample_style, ⟨⟨some ⟨5, 5⟩, true, false, true, false⟩⟩,
   ⟨⟨some 9, none, false, false, false⟩, none⟩, fun _ => some sample_layer⟩

/-- A context on a release edge whose memory is the state left by a press of
id 7 in `pressed_ctx`. -/
def released_ctx : Context :=
  ⟨sample_style, ⟨⟨some ⟨5, 5⟩, false, true, false, false⟩⟩,
   ⟨⟨some 7, none, true, false, false⟩, none⟩, fun _ => some sample_layer⟩

/-- A context whose input snapshot has no mouse position. -/
def no_mouse_ctx : Context :=
  ⟨sample_style, ⟨⟨none, false, true, false, true⟩⟩, fresh_memory, fun _ => none⟩

end Egui

namespace Emigui

/-- A 2D vector / screen position (emigui `Vec2` from math.rs). -/
structure Vec2 where
  x : ℚ
  y : ℚ
deriving DecidableEq

/-- `vec2` constructor helper from math.rs. -/
def vec2 (x y : ℚ) : Vec2 := ⟨x, y⟩

instance : Add Vec2 := ⟨fun a b => ⟨a.x + b.x, a.y + b.y⟩⟩

/-- Axis-aligned rectangle stored as `pos`/`size` (emigui `Rect` from math.rs). -/
structure Rect where
  pos : Vec2
  size : Vec2
deriving DecidableEq

/-- Modelled from the spec: `Rect::min` from math.rs (absent from src/): the
top-left corner, i.e. `pos`. -/
def Rect.min (r : Rect) : Vec2 := r.pos

/-- Modelled from the spec: `Rect::max` from math.rs (absent from src/):
`pos + size`. -/
def Rect.max (r : Rect) : Vec2 := r.pos + r.size

/-- Modelled from the spec: `Rect::center` from math.rs (absent from src/):
`pos + size / 2`. -/
def Rect.center (r : Rect) : Vec2 := ⟨r.pos.x + r.size.x / 2, r.pos.y + r.size.y / 2⟩

/-- Modelled from the spec: `Rect::from_min_size` from math.rs (absent from src/). -/
def Rect.from_min_size (pos size : Vec2) : Rect := ⟨pos, size⟩

/-- Modelled from the spec: `Rect::from_center_size` from math.rs (absent from src/). -/
def Rect.from_center_size (center size : Vec2) : Rect :=
  ⟨⟨center.x - size.x / 2, center.y - size.y / 2⟩, size⟩

/-- Closed-interval membership of a point in a rectangle, on both axes; used
to state bounding-square containment. -/
def Rect.contains_pt (r : Rect) (p : Vec2) : Prop :=
  r.min.x ≤ p.x ∧ p.x ≤ r.max.x ∧ r.min.y ≤ p.y ∧ p.y ≤ r.max.y

/-- Modelled from the spec: `lerp` from math.rs (absent from src/): linear
interpolation from `mn` to `mx` by `t`. -/
def lerp (mn mx t : ℚ) : ℚ := mn + t * (mx - mn)

/-- Modelled from the spec: clamping of `x` to the interval `[mn, mx]`. -/
def clamp (x mn mx : ℚ) : ℚ := Min.min mx (Max.max mn x)

/-- Modelled from the spec: `remap_clamp` from math.rs (absent from src/):
the value is clamped to `[from_min, from_max]` and then linearly remapped to
`[to_min, to_max]` (clamped, not extrapolated). -/
def remap_clamp (x from_min from_max to_min to_max : ℚ) : ℚ :=
  let t := (clamp x from_min from_max - from_min) / (from_max - from_min)
  lerp to_min to_max t

/-- An sRGBA color (emigui `Color`). -/
structure Color where
  r : ℕ
  g : ℕ
  b : ℕ
  a : ℕ
deriving DecidableEq

/-- `srgba` color constructor. -/
def srgba (r g b a : ℕ) : Color := ⟨r, g, b, a⟩

/-- Horizontal text alignment (emigui `TextAlign`). -/
inductive TextAlign where
  | Start
  | Center
  | End
deriving DecidableEq

/-- Text style of a `GuiCmd::Text` (emigui `TextStyle`); only `Label` exists
at this point of the source. -/
inductive TextStyle where
  | Label
deriving DecidableEq

/-- Modelled from the spec: outline of a painted shape (width and color);
`translate_cmd` only ever passes `None` for it. -/
structure Outline where
  width : ℚ
  color : Color
deriving DecidableEq

/-- A drawable primitive handed to the tessellator (emigui `PaintCmd`). -/
inductive PaintCmd where
  | Rect (corner_radius : ℚ) (fill_color : Option Color) (outline : Option Outline)
      (pos : Vec2) (size : Vec2)
  | Circle (center : Vec2) (fill_color : Option Color) (outline : Option Outline) (radius : ℚ)
  | Line (points : List Vec2) (color : Color) (width : ℚ)
  | Text (fill_color : Color) (font : String) (pos : Vec2) (text : String)
      (text_align : TextAlign)
deriving DecidableEq

/-- Whether a paint command is a `Line` primitive. -/
def PaintCmd.is_line : PaintCmd → Bool
  | PaintCmd.Line _ _ _ => true
  | _ => false

/-- Modelled from the spec: interaction flags attached to a widget command
(emigui `InteractInfo` from types.rs, absent from src/); `translate_cmd`
reads `active` and `hovered`. -/
structure InteractInfo where
  hovered : Bool
  clicked : Bool
  active : Bool
deriving DecidableEq

/-- A widget command to be translated into paint primitives (emigui `GuiCmd`). -/
inductive GuiCmd where
  | PaintCommands (commands : List PaintCmd)
  | Button (interact : InteractInfo) (rect : Rect) (text : String)
  | Checkbox (checked : Bool) (interact : InteractInfo) (rect : Rect) (text : String)
  | RadioButton (checked : Bool) (interact : InteractInfo) (rect : Rect) (text : String)
  | Slider (interact : InteractInfo) (label : String) (max : ℚ) (min : ℚ)
      (rect : Rect) (value : ℚ)
  | Text (pos : Vec2) (text : String) (text_align : TextAlign) (style : TextStyle)
deriving DecidableEq

/-- The style parameters of the translation (emigui `Style` from style.rs). -/
structure Style where
  line_width : ℚ
deriving DecidableEq

/-- `Style::default()`: line width 2. -/
def Style.default : Style := ⟨2⟩

/-- Modelled from the spec: Rust `{:.3}` formatting of the slider value with
three decimal places — rounds to the nearest thousandth and prints sign,
integer part and three fractional digits. -/
def format_decimal_3 (v : ℚ) : String :=
  let n : ℤ := round (v * 1000)
  let sign := if n < 0 then "-" else ""
  sign ++ toString (n.natAbs / 1000) ++ "." ++ (toString (1000 + n.natAbs % 1000)).drop 1

/-- `translate_cmd`: translates one widget command, appending the produced
paint primitives to `out_commands` (the `&mut Vec` accumulator is embedded
as list append). -/
def translate_cmd (out_commands : List PaintCmd) (style : Style) (cmd : GuiCmd) :
    List PaintCmd :=
  match cmd with
  | GuiCmd.PaintCommands commands => out_commands ++ commands
  | GuiCmd.Button interact rect text =>
    let rect_fill_color :=
      if interact.active then srgba 136 136 136 255
      else if interact.hovered then srgba 100 100 100 255
      else srgba 68 68 68 255
    out_commands ++
      [PaintCmd.Rect 5 (some rect_fill_color) none rect.pos rect.size,
       PaintCmd.Text (srgba 255 255 255 187) "14px Palatino"
         ⟨rect.center.x, rect.center.y + 6⟩ text TextAlign.Center]
  | GuiCmd.Checkbox checked interact rect text =>
    let fill_color :=
      if interact.active then srgba 136 136 136 255
      else if interact.hovered then srgba 100 100 100 255
      else srgba 68 68 68 255
    let stroke_color :=
      if interact.active then srgba 255 255 255 255
      else if interact.hovered then srgba 255 255 255 200
      else srgba 255 255 255 170
    let box_side : ℚ := 16
    let box_rect := Rect.from_center_size
      (vec2 (rect.min.x + box_side * (1 / 2)) rect.center.y) (vec2 box_side box_side)
    let out := out_commands ++
      [PaintCmd.Rect 3 (some fill_color) none box_rect.pos box_rect.size]
    let out :=
      if checked then
        let smaller_rect := Rect.from_center_size box_rect.center (vec2 10 10)
        out ++
          [PaintCmd.Line
            [vec2 smaller_rect.min.x smaller_rect.center.y,
             vec2 smaller_rect.center.x smaller_rect.max.y,
             vec2 smaller_rect.max.x smaller_rect.min.y]
            stroke_color style.line_width]
      else out
    out ++
      [PaintCmd.Text stroke_color "14px Palatino"
        ⟨box_rect.max.x + 4, rect.center.y + 5⟩ text TextAlign.Start]
  | GuiCmd.RadioButton checked interact rect text =>
    let fill_color :=
      if interact.active then srgba 136 136 136 255
      else if interact.hovered then srgba 100 100 100 255
      else srgba 68 68 68 255
    let stroke_color :=
      if interact.active then srgba 255 255 255 255
      else if interact.hovered then srgba 255 255 255 200
      else srgba 255 255 255 170
    let circle_radius : ℚ := 8
    let circle_center := vec2 (rect.min.x + circle_radius) rect.center.y
    let out := out_commands ++
      [PaintCmd.Circle circle_center (some fill_color) none circle_radius]
    let out :=
      if checked then
        out ++ [PaintCmd.Circle circle_center (some (srgba 0 0 0 255)) none
          (circle_radius * (1 / 2))]
      else out
    out ++
      [PaintCmd.Text stroke_color "14px Palatino"
        ⟨rect.min.x + 2 * circle_radius + 4, rect.center.y + 14 / 2⟩ text TextAlign.Start]
  | GuiCmd.Slider interact label mx mn rect value =>
    let thin_rect := Rect.from_min_size
      (vec2 rect.min.x (lerp rect.min.y rect.max.y (2 / 3)))
      (vec2 rect.size.x 8)
    let marker_center_x := remap_clamp value mn mx rect.min.x rect.max.x
    let marker_rect := Rect.from_center_size
      (vec2 marker_center_x thin_rect.center.y) (vec2 16 16)
    let marker_fill_color :=
      if interact.active then srgba 136 136 136 255
      else if interact.hovered then srgba 100 100 100 255
      else srgba 68 68 68 255
    out_commands ++
      [PaintCmd.Rect 2 (some (srgba 34 34 34 255)) none thin_rect.pos thin_rect.size,
       PaintCmd.Rect 3 (some marker_fill_color) none marker_rect.pos marker_rect.size,
       PaintCmd.Text (srgba 255 255 255 187) "14px Palatino"
         (vec2 rect.min.x (lerp rect.min.y rect.max.y (1 / 3) + 6))
         (label ++ ": " ++ format_decimal_3 value) TextAlign.Start]
  | GuiCmd.Text pos text text_align st =>
    let fill_color :=
      match st with
      | TextStyle.Label => srgba 255 255 255 187
    out_commands ++
      [PaintCmd.Text fill_color "14px Palatino" (pos + vec2 0 7) text text_align]

/-- `into_paint_commands`: translates a sequence of widget commands into one
sequence of paint primitives by folding `translate_cmd` over an initially
empty output vector. -/
def into_paint_commands (gui_commands : List GuiCmd) (style : Style) : List PaintCmd :=
  gui_commands.foldl (fun acc cmd => translate_cmd acc style cmd) []

end Emigui

namespace Egui

/-- C1 (counterexample): with a previous claim of the same id at distance 1
(well within the 4-point clash threshold), `register_unique_id` still emits
a diagnostic, contradicting the claim that none is emitted. -/
theorem near_clash_emits_diagnostic :
    Pos2.dist_sq ⟨0, 0⟩ ⟨1, 0⟩ < 16 ∧
    (register_unique_id [(0, ⟨0, 0⟩)] 0 "window" ⟨1, 0⟩).2.2 ≠ [] := by
  constructor
  · norm_num [Pos2.dist_sq]
  · simp [register_unique_id, registry_insert, List.lookup, Pos2.dist_sq]

/-- C1 (amended): when an id is re-registered within the small pixel clash
threshold of its previous claim position, exactly one diagnostic is emitted,
anchored at the new position, reading "use of non-unique ID ... (name
clash?)" — not the pair of first-use/second-use diagnostics. -/
theorem register_unique_id_near_clash (reg : IdRegistry) (i : Id) (name : String)
    (pos old : Pos2) (hlook : reg.lookup i = some old)
    (hnear : Pos2.dist_sq old pos < 16) :
    (register_unique_id reg i name pos).2.2 =
      [(pos, "use of non-unique ID " ++ name ++ " (name clash?)")] := by
  simp [register_unique_id, registry_insert, hlook, hnear]

/-- Witness for C1 (amended) at a concrete registry and position. -/
theorem register_unique_id_near_clash_witness :
    ([((0 : Id), (⟨0, 0⟩ : Pos2))].lookup (0 : Id) = some (⟨0, 0⟩ : Pos2))
    ∧ Pos2.dist_sq ⟨0, 0⟩ ⟨1, 0⟩ < 16
    ∧ (register_unique_id [(0, ⟨0, 0⟩)] 0 "window" ⟨1, 0⟩).2.2 =
        [(⟨1, 0⟩, "use of non-unique ID " ++ "window" ++ " (name clash?)")] :=
  ⟨rfl, by norm_num [Pos2.dist_sq],
   register_unique_id_near_clash [(0, ⟨0, 0⟩)] 0 "window" ⟨1, 0⟩ ⟨0, 0⟩ rfl
     (by norm_num [Pos2.dist_sq])⟩

/-- C2: when the id is empty or the capability mask requests neither click
nor drag, `interact` returns the hit-test result with all other flags false
and leaves the memory (ownership, interest flags, window interaction)
untouched. -/
theorem interact_hover_probe (c : Context) (layer : Layer) (clip_rect rect : Rect)
    (interaction_id : Option Id) (sense : Sense)
    (h : interaction_id = none ∨ (sense.click = false ∧ sense.drag = false)) :
    c.interact layer clip_rect rect interaction_id sense =
      (⟨rect, c.contains_mouse layer clip_rect (c.interact_rect_of rect),
        false, false, false⟩,
       c.memory) := by
  rcases h with h | ⟨h1, h2⟩
  · subst h
    simp [Context.interact]
  · obtain ⟨sc, sd⟩ := sense
    simp only at h1 h2
    subst h1; subst h2
    cases interaction_id <;> simp [Context.interact, Sense.nothing]

/-- Witness for C2 at a concrete context with an empty id. -/
theorem interact_hover_probe_witness :
    ((none : Option Id) = none
      ∨ ((Sense.nothing).click = false ∧ (Sense.nothing).drag = false))
    ∧ idle_ctx.interact sample_layer sample_clip sample_rect none Sense.nothing =
      (⟨sample_rect,
        idle_ctx.contains_mouse sample_layer sample_clip
          (idle_ctx.interact_rect_of sample_rect),
        false, false, false⟩,
       idle_ctx.memory) :=
  ⟨Or.inl rfl,
   interact_hover_probe idle_ctx sample_layer sample_clip sample_rect none Sense.nothing
     (Or.inl rfl)⟩

/-- C3: on a press edge over a hovered region, with an id and drag
capability, if the drag owner is empty or is the window-drag placeholder,
the id claims `drag_id`, the placeholder flag is cleared, the window-move
interaction is cleared, and the result is active. -/
theorem interact_press_drag_claims (c : Context) (layer : Layer) (clip_rect rect : Rect)
    (i : Id) (sense : Sense)
    (hpress : c.input.mouse.pressed = true)
    (hhov : c.contains_mouse layer clip_rect (c.interact_rect_of rect) = true)
    (hdrag : sense.drag = true)
    (hown : c.memory.interaction.drag_id = none ∨ c.memory.interaction.drag_is_window = true) :
    ((c.interact layer clip_rect rect (some i) sense).2.interaction.drag_id = some i)
    ∧ ((c.interact layer clip_rect rect (some i) sense).2.interaction.drag_is_window = false)
    ∧ ((c.interact layer clip_rect rect (some i) sense).2.window_interaction = none)
    ∧ ((c.interact layer clip_rect rect (some i) sense).1.active = true) := by
  obtain ⟨sc, sd⟩ := sense
  simp only at hdrag
  subst hdrag
  rcases hown with hown | hown <;>
    by_cases hcc : c.memory.interaction.click_id = none <;>
      cases sc <;>
        simp [Context.interact, Sense.nothing, hpress, hhov, hown, hcc,
          Option.isNone_iff_eq_none]

/-- Witness for C3 at a concrete press-edge context with a free drag owner. -/
theorem interact_press_drag_claims_witness :
    pressed_ctx.input.mouse.pressed = true
    ∧ pressed_ctx.contains_mouse sample_layer sample_clip
        (pressed_ctx.interact_rect_of sample_rect) = true
    ∧ (⟨false, true⟩ : Sense).drag = true
    ∧ (pressed_ctx.memory.interaction.drag_id = none
        ∨ pressed_ctx.memory.interaction.drag_is_window = true)
    ∧ (((pressed_ctx.interact sample_layer sample_clip sample_rect (some 7)
          ⟨false, true⟩).2.interaction.drag_id = some 7)
      ∧ ((pressed_ctx.interact sample_layer sample_clip sample_rect (some 7)
          ⟨false, true⟩).2.interaction.drag_is_window = false)
      ∧ ((pressed_ctx.interact sample_layer sample_clip sample_rect (some 7)
          ⟨false, true⟩).2.window_interaction = none)
      ∧ ((pressed_ctx.interact sample_layer sample_clip sample_rect (some 7)
          ⟨false, true⟩).1.active = true)) := by
  have hhov : pressed_ctx.contains_mouse sample_layer sample_clip
      (pressed_ctx.interact_rect_of sample_rect) = true := by
    norm_num [Context.contains_mouse, Context.interact_rect_of, Rect.intersect, Rect.contains,
      Rect.expand2, pressed_ctx, sample_style, sample_layer, sample_clip, sample_rect,
      fresh_memory, min_def, max_def]
  exact ⟨rfl, hhov, rfl, Or.inl rfl,
    interact_press_drag_claims pressed_ctx sample_layer sample_clip sample_rect 7
      ⟨false, true⟩ rfl hhov rfl (Or.inl rfl)⟩

end Egui

namespace Egui

/-- C4: a press edge over a hovered region with capability click and no
click owner returns active; a subsequent release edge with the same id over
the same region, still hovered and with ownership unchanged in between,
returns clicked. -/
theorem interact_click_press_release (c1 c2 : Context) (layer : Layer) (clip_rect rect : Rect)
    (i : Id)
    (hpress : c1.input.mouse.pressed = true)
    (hhov1 : c1.contains_mouse layer clip_rect (c1.interact_rect_of rect) = true)
    (hfree : c1.memory.interaction.click_id = none)
    (hmem : c2.memory = (c1.interact layer clip_rect rect (some i) ⟨true, false⟩).2)
    (hp2 : c2.input.mouse.pressed = false)
    (hr2 : c2.input.mouse.released = true)
    (hhov2 : c2.contains_mouse layer clip_rect (c2.interact_rect_of rect) = true) :
    ((c1.interact layer clip_rect rect (some i) ⟨true, false⟩).1.active = true)
    ∧ ((c2.interact layer clip_rect rect (some i) ⟨true, false⟩).1.clicked = true) := by
  have h1 : (c1.interact layer clip_rect rect (some i) ⟨true, false⟩).2.interaction.click_id
      = some i := by
    simp [Context.interact, Sense.nothing, hpress, hhov1, hfree, Option.isNone_iff_eq_none]
  constructor
  · simp [Context.interact, Sense.nothing, hpress, hhov1, hfree, Option.isNone_iff_eq_none]
  · rw [← hmem] at h1
    simp [Context.interact, Sense.nothing, hp2, hr2, hhov2, h1]

/-- Witness for C4: id 7 pressed in `pressed_ctx`, released in
`released_ctx`, which carries the memory the press produced. -/
theorem interact_click_press_release_witness :
    pressed_ctx.input.mouse.pressed = true
    ∧ pressed_ctx.contains_mouse sample_layer sample_clip
        (pressed_ctx.interact_rect_of sample_rect) = true
    ∧ pressed_ctx.memory.interaction.click_id = none
    ∧ released_ctx.memory =
        (pressed_ctx.interact sample_layer sample_clip sample_rect (some 7) ⟨true, false⟩).2
    ∧ released_ctx.input.mouse.pressed = false
    ∧ released_ctx.input.mouse.released = true
    ∧ released_ctx.contains_mouse sample_layer sample_clip
        (released_ctx.interact_rect_of sample_rect) = true
    ∧ (((pressed_ctx.interact sample_layer sample_clip sample_rect (some 7)
          ⟨true, false⟩).1.active = true)
      ∧ ((released_ctx.interact sample_layer sample_clip sample_rect (some 7)
          ⟨true, false⟩).1.clicked = true)) := by
  have hhov1 : pressed_ctx.contains_mouse sample_layer sample_clip
      (pressed_ctx.interact_rect_of sample_rect) = true := by
    norm_num [Context.contains_mouse, Context.interact_rect_of, Rect.intersect, Rect.contains,
      Rect.expand2, pressed_ctx, sample_style, sample_layer, sample_clip, sample_rect,
      fresh_memory, min_def, max_def]
  have hhov2 : released_ctx.contains_mouse sample_layer sample_clip
      (released_ctx.interact_rect_of sample_rect) = true := by
    norm_num [Context.contains_mouse, Context.interact_rect_of, Rect.intersect, Rect.contains,
      Rect.expand2, released_ctx, sample_style, sample_layer, sample_clip, sample_rect,
      min_def, max_def]
  have hmem : released_ctx.memory =
      (pressed_ctx.interact sample_layer sample_clip sample_rect (some 7) ⟨true, false⟩).2 := by
    norm_num [Context.interact, Context.contains_mouse, Context.interact_rect_of,
      Rect.intersect, Rect.contains, Rect.expand2, pressed_ctx, released_ctx, sample_style,
      sample_layer, sample_clip, sample_rect, fresh_memory, Sense.nothing, min_def, max_def]
  exact ⟨rfl, hhov1, rfl, hmem, rfl, rfl, hhov2,
    interact_click_press_release pressed_ctx released_ctx sample_layer sample_clip
      sample_rect 7 rfl hhov1 rfl hmem rfl rfl hhov2⟩

/-- C5: a press edge over a hovered region with capability click, when the
click is already owned by a different id, returns active false and leaves
the owner unchanged (first claimant wins). -/
theorem interact_press_click_owned (c : Context) (layer : Layer) (clip_rect rect : Rect)
    (i j : Id)
    (hpress : c.input.mouse.pressed = true)
    (hhov : c.contains_mouse layer clip_rect (c.interact_rect_of rect) = true)
    (hown : c.memory.interaction.click_id = some j) (_hne : j ≠ i) :
    ((c.interact layer clip_rect rect (some i) ⟨true, false⟩).1.active = false)
    ∧ ((c.interact layer clip_rect rect (some i) ⟨true, false⟩).2.interaction.click_id
        = some j) := by
  simp [Context.interact, Sense.nothing, hpress, hhov, hown, Option.isNone_iff_eq_none]

/-- Witness for C5: id 7 presses while id 9 owns the click in `owned_ctx`. -/
theorem interact_press_click_owned_witness :
    owned_ctx.input.mouse.pressed = true
    ∧ owned_ctx.contains_mouse sample_layer sample_clip
        (owned_ctx.interact_rect_of sample_rect) = true
    ∧ owned_ctx.memory.interaction.click_id = some 9
    ∧ (9 : Id) ≠ 7
    ∧ (((owned_ctx.interact sample_layer sample_clip sample_rect (some 7)
          ⟨true, false⟩).1.active = false)
      ∧ ((owned_ctx.interact sample_layer sample_clip sample_rect (some 7)
          ⟨true, false⟩).2.interaction.click_id = some 9)) := by
  have hhov : owned_ctx.contains_mouse sample_layer sample_clip
      (owned_ctx.interact_rect_of sample_rect) = true := by
    norm_num [Context.contains_mouse, Context.interact_rect_of, Rect.intersect, Rect.contains,
      Rect.expand2, owned_ctx, sample_style, sample_layer, sample_clip, sample_rect,
      min_def, max_def]
  exact ⟨rfl, hhov, rfl, by decide,
    interact_press_click_owned owned_ctx sample_layer sample_clip sample_rect 7 9
      rfl hhov rfl (by decide)⟩

/-- C10: when the input snapshot has no mouse position, `interact` reports
hovered, clicked and double_clicked all false, for every layer, clip
rectangle, region, id and capability mask. -/
theorem interact_no_mouse_pos (c : Context) (layer : Layer) (clip_rect rect : Rect)
    (interaction_id : Option Id) (sense : Sense)
    (h : c.input.mouse.pos = none) :
    (c.interact layer clip_rect rect interaction_id sense).1.hovered = false
    ∧ (c.interact layer clip_rect rect interaction_id sense).1.clicked = false
    ∧ (c.interact layer clip_rect rect interaction_id sense).1.double_clicked = false := by
  have hov : ∀ r, c.contains_mouse layer clip_rect r = false := by
    intro r
    simp [Context.contains_mouse, h]
  cases interaction_id with
  | none => simp [Context.interact, hov]
  | some i =>
    by_cases hs : sense = Sense.nothing
    · simp [Context.interact, hov, hs]
    · simp only [Context.interact, hov, hs]
      split
      · simp
      · split
        · simp
        · split <;> simp

/-- Witness for C10 at a concrete context with no mouse position. -/
theorem interact_no_mouse_pos_witness :
    no_mouse_ctx.input.mouse.pos = none
    ∧ ((no_mouse_ctx.interact sample_layer sample_clip sample_rect (some 3)
          ⟨true, true⟩).1.hovered = false
      ∧ (no_mouse_ctx.interact sample_layer sample_clip sample_rect (some 3)
          ⟨true, true⟩).1.clicked = false
      ∧ (no_mouse_ctx.interact sample_layer sample_clip sample_rect (some 3)
          ⟨true, true⟩).1.double_clicked = false) :=
  ⟨rfl, interact_no_mouse_pos no_mouse_ctx sample_layer sample_clip sample_rect (some 3)
    ⟨true, true⟩ rfl⟩

end Egui

namespace Egui

/-- Every frame's diagnostics depend only on that frame's registrations: the
registry is cleared on frame entry, so the leftover registry never leaks in. -/
theorem run_frames_eq_map (reg : IdRegistry) (frames : List (List Registration)) :
    run_frames reg frames = frames.map (fun f => (run_frame reg f).2) := by
  induction frames generalizing reg with
  | nil => rfl
  | cons f fs ih => simp [run_frames, ih, run_frame]

/-- A frame registering the same id twice, farther apart than the clash
tolerance, emits exactly the first-use and second-use diagnostics. -/
theorem clash_frame_diags (reg : IdRegistry) (i : Id) (n1 n2 : String) (p1 p2 : Pos2)
    (hfar : 16 < Pos2.dist_sq p1 p2) :
    (run_frame reg [(i, n1, p1), (i, n2, p2)]).2 =
      [(p1, "first use of non-unique ID " ++ n2 ++ " (name clash?)"),
       (p2, "second use of non-unique ID " ++ n2 ++ " (name clash?)")] := by
  have h : ¬(Pos2.dist_sq p1 p2 < 16) := by linarith
  simp [run_frame, run_registrations, register_unique_id, registry_insert, h]

/-- C6: in every frame of a run whose registrations claim the same id at
two positions farther apart than the clash tolerance, exactly two
diagnostics are produced, anchored at the two positions — and this recurs in
every such frame because the registry is cleared at frame start. -/
theorem id_clash_two_diags_every_frame (reg0 : IdRegistry) (i : Id) (n1 n2 : String)
    (p1 p2 : Pos2) (hfar : 16 < Pos2.dist_sq p1 p2)
    (frames : List (List Registration)) (k : Nat) (hk : k < frames.length)
    (hf : frames.get ⟨k, hk⟩ = [(i, n1, p1), (i, n2, p2)]) :
    ∃ hk2 : k < (run_frames reg0 frames).length,
      (run_frames reg0 frames).get ⟨k, hk2⟩ =
        [(p1, "first use of non-unique ID " ++ n2 ++ " (name clash?)"),
         (p2, "second use of non-unique ID " ++ n2 ++ " (name clash?)")] := by
  have hmap := run_frames_eq_map reg0 frames
  have hlen : (run_frames reg0 frames).length = frames.length := by simp [hmap]
  refine ⟨by rw [hlen]; exact hk, ?_⟩
  rw [← clash_frame_diags reg0 i n1 n2 p1 p2 hfar, ← hf]
  simp [hmap, List.get_eq_getElem, List.getElem_map, run_frame]

/-- Witness for C6: id 0 registered at distance 5 twice inside the second of
two identical frames; both frames yield the two diagnostics. -/
theorem id_clash_two_diags_witness :
    16 < Pos2.dist_sq ⟨0, 0⟩ ⟨5, 0⟩
    ∧ [[((0 : Id), "a", (⟨0, 0⟩ : Pos2)), (0, "b", ⟨5, 0⟩)],
       [((0 : Id), "a", (⟨0, 0⟩ : Pos2)), (0, "b", ⟨5, 0⟩)]].get ⟨1, by decide⟩ =
        [(0, "a", ⟨0, 0⟩), (0, "b", ⟨5, 0⟩)]
    ∧ ∃ hk2 : 1 < (run_frames []
        [[((0 : Id), "a", (⟨0, 0⟩ : Pos2)), (0, "b", ⟨5, 0⟩)],
         [((0 : Id), "a", (⟨0, 0⟩ : Pos2)), (0, "b", ⟨5, 0⟩)]]).length,
      (run_frames []
        [[((0 : Id), "a", (⟨0, 0⟩ : Pos2)), (0, "b", ⟨5, 0⟩)],
         [((0 : Id), "a", (⟨0, 0⟩ : Pos2)), (0, "b", ⟨5, 0⟩)]]).get ⟨1, hk2⟩ =
        [(⟨0, 0⟩, "first use of non-unique ID " ++ "b" ++ " (name clash?)"),
         (⟨5, 0⟩, "second use of non-unique ID " ++ "b" ++ " (name clash?)")] :=
  ⟨by norm_num [Pos2.dist_sq], rfl,
   id_clash_two_diags_every_frame [] 0 "a" "b" ⟨0, 0⟩ ⟨5, 0⟩
     (by norm_num [Pos2.dist_sq])
     [[(0, "a", ⟨0, 0⟩), (0, "b", ⟨5, 0⟩)], [(0, "a", ⟨0, 0⟩), (0, "b", ⟨5, 0⟩)]]
     1 (by decide) rfl⟩

end Egui

namespace Emigui

/-- Unfolding rule for vector addition. -/
theorem Vec2.add_def (a b : Vec2) : a + b = ⟨a.x + b.x, a.y + b.y⟩ := rfl

/-- C7: the style translation is a pure, deterministic function of the
command list and the style: equal inputs give identical paint-command
sequences (the embedding is a plain function, so it touches no shared
state by construction). -/
theorem into_paint_commands_deterministic (g1 g2 : List GuiCmd) (s1 s2 : Style)
    (hg : g1 = g2) (hs : s1 = s2) :
    into_paint_commands g1 s1 = into_paint_commands g2 s2 := by
  subst hg; subst hs; rfl

/-- Witness for C7 on a concrete checkbox command. -/
theorem into_paint_commands_deterministic_witness :
    ([GuiCmd.Checkbox true ⟨false, false, false⟩ ⟨⟨0, 0⟩, ⟨40, 20⟩⟩ "c"]
      = [GuiCmd.Checkbox true ⟨false, false, false⟩ ⟨⟨0, 0⟩, ⟨40, 20⟩⟩ "c"])
    ∧ (Style.default = Style.default)
    ∧ into_paint_commands [GuiCmd.Checkbox true ⟨false, false, false⟩ ⟨⟨0, 0⟩, ⟨40, 20⟩⟩ "c"]
        Style.default =
      into_paint_commands [GuiCmd.Checkbox true ⟨false, false, false⟩ ⟨⟨0, 0⟩, ⟨40, 20⟩⟩ "c"]
        Style.default :=
  ⟨rfl, rfl,
   into_paint_commands_deterministic
     [GuiCmd.Checkbox true ⟨false, false, false⟩ ⟨⟨0, 0⟩, ⟨40, 20⟩⟩ "c"]
     [GuiCmd.Checkbox true ⟨false, false, false⟩ ⟨⟨0, 0⟩, ⟨40, 20⟩⟩ "c"]
     Style.default Style.default rfl rfl⟩

end Emigui

namespace Emigui

/-- C8: translating a checkbox with checked false emits no Line primitive;
with checked true it emits exactly one checkmark Line whose three points all
lie within the checkmark marker's bounding square (the 10-by-10 square
centered in the checkbox box). -/
theorem checkbox_checkmark (interact : InteractInfo) (rect : Rect) (text : String)
    (style : Style) :
    ((into_paint_commands [GuiCmd.Checkbox false interact rect text] style).filter
        PaintCmd.is_line = [])
    ∧ ∃ p1 p2 p3 col w,
        (into_paint_commands [GuiCmd.Checkbox true interact rect text] style).filter
          PaintCmd.is_line = [PaintCmd.Line [p1, p2, p3] col w]
        ∧ (Rect.from_center_size (vec2 (rect.min.x + 8) rect.center.y)
            (vec2 10 10)).contains_pt p1
        ∧ (Rect.from_center_size (vec2 (rect.min.x + 8) rect.center.y)
            (vec2 10 10)).contains_pt p2
        ∧ (Rect.from_center_size (vec2 (rect.min.x + 8) rect.center.y)
            (vec2 10 10)).contains_pt p3 := by
  constructor
  · simp [into_paint_commands, translate_cmd, PaintCmd.is_line]
  refine ⟨vec2 (rect.min.x + 3) rect.center.y, vec2 (rect.min.x + 8) (rect.center.y + 5),
    vec2 (rect.min.x + 13) (rect.center.y - 5),
    (if interact.active then srgba 255 255 255 255
      else if interact.hovered then srgba 255 255 255 200 else srgba 255 255 255 170),
    style.line_width, ?_, ?_, ?_, ?_⟩
  · simp [into_paint_commands, translate_cmd, PaintCmd.is_line, Rect.from_center_size,
      Rect.min, Rect.max, Rect.center, vec2, Vec2.add_def]
    try norm_num
    try (and_intros <;> linarith)
  all_goals
    simp [Rect.contains_pt, Rect.from_center_size, Rect.min, Rect.max, Rect.center, vec2,
      Vec2.add_def]
    try norm_num
    try (and_intros <;> linarith)

/-- The clamped value stays in the clamping interval. -/
theorem clamp_mem (v mn mx : ℚ) (h : mn ≤ mx) :
    mn ≤ clamp v mn mx ∧ clamp v mn mx ≤ mx := by
  unfold clamp
  constructor
  · exact le_min h (le_max_left _ _)
  · exact min_le_left _ _

/-- The clamped linear remap lands inside the target interval. -/
theorem remap_clamp_mem (v mn mx x0 x1 : ℚ) (h : mn ≤ mx) (hx : x0 ≤ x1) :
    x0 ≤ remap_clamp v mn mx x0 x1 ∧ remap_clamp v mn mx x0 x1 ≤ x1 := by
  obtain ⟨hc1, hc2⟩ := clamp_mem v mn mx h
  unfold remap_clamp lerp
  rcases eq_or_lt_of_le h with heq | hlt
  · have hc : clamp v mn mx = mn := le_antisymm (heq ▸ hc2) hc1
    rw [hc]
    simp
    exact hx
  · have hd : 0 < mx - mn := by linarith
    have ht0 : 0 ≤ (clamp v mn mx - mn) / (mx - mn) := by
      apply div_nonneg <;> linarith
    have ht1 : (clamp v mn mx - mn) / (mx - mn) ≤ 1 := by
      rw [div_le_one hd]; linarith
    constructor
    · nlinarith
    · nlinarith

/-- Remapping the lower endpoint lands on the target's left endpoint. -/
theorem remap_clamp_at_min (mn mx x0 x1 : ℚ) (h : mn ≤ mx) :
    remap_clamp mn mn mx x0 x1 = x0 := by
  unfold remap_clamp clamp lerp
  rw [max_self, min_eq_right h]
  simp

/-- Remapping the upper endpoint lands on the target's right endpoint. -/
theorem remap_clamp_at_max (mn mx x0 x1 : ℚ) (h : mn < mx) :
    remap_clamp mx mn mx x0 x1 = x1 := by
  unfold remap_clamp clamp lerp
  rw [max_eq_right h.le, min_self, div_self (by linarith : mx - mn ≠ 0)]
  ring

/-- C9: the slider marker's center x is `remap_clamp value min max` over the
track's horizontal extent; it always lies within the track, value at min
sits at the left extreme and (for a nondegenerate range) value at max sits
at the right extreme.  The translated marker rectangle has x position
`marker_center_x - 8` with width 16, so its center is `marker_center_x`. -/
theorem slider_marker_clamped (interact : InteractInfo) (label : String) (mn mx value : ℚ)
    (rect : Rect) (style : Style) (h : mn ≤ mx) (hw : 0 ≤ rect.size.x) :
    ∃ fill mpos_y,
      into_paint_commands [GuiCmd.Slider interact label mx mn rect value] style =
        [PaintCmd.Rect 2 (some (srgba 34 34 34 255)) none
           (vec2 rect.min.x (lerp rect.min.y rect.max.y (2 / 3))) (vec2 rect.size.x 8),
         PaintCmd.Rect 3 (some fill) none
           (vec2 (remap_clamp value mn mx rect.min.x rect.max.x - 8) mpos_y) (vec2 16 16),
         PaintCmd.Text (srgba 255 255 255 187) "14px Palatino"
           (vec2 rect.min.x (lerp rect.min.y rect.max.y (1 / 3) + 6))
           (label ++ ": " ++ format_decimal_3 value) TextAlign.Start]
      ∧ rect.min.x ≤ remap_clamp value mn mx rect.min.x rect.max.x
      ∧ remap_clamp value mn mx rect.min.x rect.max.x ≤ rect.max.x
      ∧ (value = mn → remap_clamp value mn mx rect.min.x rect.max.x = rect.min.x)
      ∧ (mn < mx → value = mx →
          remap_clamp value mn mx rect.min.x rect.max.x = rect.max.x) := by
  have hx : rect.min.x ≤ rect.max.x := by
    simp [Rect.min, Rect.max, Vec2.add_def]; linarith
  obtain ⟨hm1, hm2⟩ := remap_clamp_mem value mn mx rect.min.x rect.max.x h hx
  refine ⟨(if interact.active then srgba 136 136 136 255
    else if interact.hovered then srgba 100 100 100 255 else srgba 68 68 68 255),
    lerp rect.min.y rect.max.y (2 / 3) + 4 - 8, ?_, hm1, hm2, ?_, ?_⟩
  · simp [into_paint_commands, translate_cmd, Rect.from_min_size, Rect.from_center_size,
      Rect.center, vec2]
    norm_num
  · intro hv; subst hv; exact remap_clamp_at_min value mx _ _ h
  · intro hlt hv; subst hv; exact remap_clamp_at_max mn value _ _ hlt

end Emigui

namespace Emigui

/-- Witness for C9: a slider over `[0, 10]` with value 20 (clamped to the
right extreme) on a 100-wide track. -/
theorem slider_marker_clamped_witness :
    ((0 : ℚ) ≤ 10)
    ∧ (0 ≤ (⟨⟨0, 0⟩, ⟨100, 40⟩⟩ : Rect).size.x)
    ∧ ∃ fill mpos_y,
        into_paint_commands
          [GuiCmd.Slider ⟨false, false, false⟩ "v" 10 0 ⟨⟨0, 0⟩, ⟨100, 40⟩⟩ 20] ⟨2⟩ =
          [PaintCmd.Rect 2 (some (srgba 34 34 34 255)) none
             (vec2 (⟨⟨0, 0⟩, ⟨100, 40⟩⟩ : Rect).min.x
               (lerp (⟨⟨0, 0⟩, ⟨100, 40⟩⟩ : Rect).min.y (⟨⟨0, 0⟩, ⟨100, 40⟩⟩ : Rect).max.y
                 (2 / 3)))
             (vec2 (⟨⟨0, 0⟩, ⟨100, 40⟩⟩ : Rect).size.x 8),
           PaintCmd.Rect 3 (some fill) none
             (vec2 (remap_clamp 20 0 10 (⟨⟨0, 0⟩, ⟨100, 40⟩⟩ : Rect).min.x
                 (⟨⟨0, 0⟩, ⟨100, 40⟩⟩ : Rect).max.x - 8) mpos_y)
             (vec2 16 16),
           PaintCmd.Text (srgba 255 255 255 187) "14px Palatino"
             (vec2 (⟨⟨0, 0⟩, ⟨100, 40⟩⟩ : Rect).min.x
               (lerp (⟨⟨0, 0⟩, ⟨100, 40⟩⟩ : Rect).min.y (⟨⟨0, 0⟩, ⟨100, 40⟩⟩ : Rect).max.y
                 (1 / 3) + 6))
             ("v" ++ ": " ++ format_decimal_3 20) TextAlign.Start]
        ∧ (⟨⟨0, 0⟩, ⟨100, 40⟩⟩ : Rect).min.x ≤
            remap_clamp 20 0 10 (⟨⟨0, 0⟩, ⟨100, 40⟩⟩ : Rect).min.x
              (⟨⟨0, 0⟩, ⟨100, 40⟩⟩ : Rect).max.x
        ∧ remap_clamp 20 0 10 (⟨⟨0, 0⟩, ⟨100, 40⟩⟩ : Rect).min.x
            (⟨⟨0, 0⟩, ⟨100, 40⟩⟩ : Rect).max.x ≤ (⟨⟨0, 0⟩, ⟨100, 40⟩⟩ : Rect).max.x
        ∧ ((20 : ℚ) = 0 →
            remap_clamp 20 0 10 (⟨⟨0, 0⟩, ⟨100, 40⟩⟩ : Rect).min.x
              (⟨⟨0, 0⟩, ⟨100, 40⟩⟩ : Rect).max.x = (⟨⟨0, 0⟩, ⟨100, 40⟩⟩ : Rect).min.x)
        ∧ ((0 : ℚ) < 10 → (20 : ℚ) = 10 →
            remap_clamp 20 0 10 (⟨⟨0, 0⟩, ⟨100, 40⟩⟩ : Rect).min.x
              (⟨⟨0, 0⟩, ⟨100, 40⟩⟩ : Rect).max.x = (⟨⟨0, 0⟩, ⟨100, 40⟩⟩ : Rect).max.x) :=
  ⟨by norm_num, by norm_num,
   slider_marker_clamped ⟨false, false, false⟩ "v" 0 10 20 ⟨⟨0, 0⟩, ⟨100, 40⟩⟩ ⟨2⟩
     (by norm_num) (by norm_num)⟩

end Emigui
